import Mathlib

/-
Verification of homeassistant/components/sensor/dht.py: the DHT sensor
platform consisting of DHTSensor (per-quantity rolling-median filter) and
DHTClient (throttled cached hardware poll).

Numeric readings are embedded as exact rationals.  All rational values that
the embedded code constructs are built through mkRat / Rat.mk with arithmetic
done on numerators and denominators, so every definition evaluates on
concrete inputs.  Python exceptions are embedded as an Except result.

Note on the source text: in DHTSensor.update the line
`if (temperature >= -20) and (temperature < 80):` is indented one level
deeper than the assignment before it (a Python IndentationError as written);
the embedding reads it the only coherent way, nested inside the
SENSOR_TEMPERATURE branch, which matches the commented-out history on the
surrounding lines.
-/

/-- Floor of 10 * x followed by the tie handling of Python round(x, 1):
round half to even, computed purely on the numerator and denominator.
With n = 10 * num, d = den and f = floor(n / d), the remainder
r = 10 * x - f satisfies r < 1/2 iff 2 * (n - f * d) < d, and similarly
for the strict upper comparison; the tie keeps an even f. -/
def roundTenths (x : ℚ) : ℤ :=
  let n : ℤ := 10 * x.num
  let d : ℤ := (x.den : ℤ)
  let f : ℤ := n.fdiv d
  let twiceRem : ℤ := 2 * (n - f * d)
  if twiceRem < d then f
  else if d < twiceRem then f + 1
  else if f % 2 = 0 then f else f + 1

/-- Python round(x, 1), idealized over exact rationals: the nearest multiple
of 1/10, half to even. -/
def pyRound1 (x : ℚ) : ℚ := mkRat (roundTenths x) 10

/-- Modelled from the spec: homeassistant.util.temperature.celsius_to_fahrenheit
is not part of the given source tree; the spec requires the standard C-to-F
formula (25 C maps to 77 F).  For x = num / den the value x * 9 / 5 + 32
equals (9 * num + 160 * den) / (5 * den), which is how it is computed here
so that it evaluates on concrete inputs; celsius_to_fahrenheit_eq below
proves it equal to the textbook formula. -/
def celsius_to_fahrenheit (x : ℚ) : ℚ :=
  mkRat (9 * x.num + 160 * (x.den : ℤ)) (5 * x.den)

/-- The cached Reading held in DHTClient.data: a dict with at most the keys
SENSOR_TEMPERATURE and SENSOR_HUMIDITY; a missing key is none. -/
structure Reading where
  temperature : Option ℚ
  humidity : Option ℚ
deriving DecidableEq

/-- The value of DHTSensor.type: one of SENSOR_TEMPERATURE, SENSOR_HUMIDITY. -/
inductive SensorKind
  | temperature
  | humidity
deriving DecidableEq

/-- Configuration of one DHTSensor, fixed at construction: the monitored
quantity, whether self.temp_unit == TEMP_FAHRENHEIT, and self.median_count. -/
structure SensorCfg where
  kind : SensorKind
  fahrenheit : Bool
  median_count : ℕ
deriving DecidableEq

/-- Mutable state of one DHTSensor: the rolling window self.data and the
displayed value self._state (none is the unknown state). -/
structure SensorState where
  data : List ℚ
  state : Option ℚ
deriving DecidableEq

/-- Python exceptions that can escape the embedded code. -/
inductive PyErr
  | keyError
deriving DecidableEq

deriving instance DecidableEq for Except

/-- Lines 137-144 of dht.py: the SENSOR_TEMPERATURE branch acting on the
window.  The already rounded temperature is range checked with
(temperature >= -20) and (temperature < 80); on success it is appended, and
when temp_unit is Fahrenheit the rounded converted value is appended as
well (the source appends both values, not one). -/
def tempAppend (cfg : SensorCfg) (temperature : ℚ) (l : List ℚ) : List ℚ :=
  if -20 ≤ temperature ∧ temperature < 80 then
    l ++ temperature ::
      (if cfg.fahrenheit then [pyRound1 (celsius_to_fahrenheit temperature)] else [])
  else l

/-- Lines 145-149 of dht.py: the SENSOR_HUMIDITY branch acting on the window.
The already rounded humidity is range checked with
(humidity >= 0) and (humidity <= 100) and appended on success. -/
def humAppend (humidity : ℚ) (l : List ℚ) : List ℚ :=
  if 0 ≤ humidity ∧ humidity ≤ 100 then l ++ [humidity] else l

/-- Lines 162-163 of dht.py: if len(self.data) > self.median_count, then
self.data = self.data[1:], a single drop of the oldest entry. -/
def trimmed (cfg : SensorCfg) (l : List ℚ) : List ℚ :=
  if cfg.median_count < l.length then l.tail else l

/-- Line 166 of dht.py: sorted(self.data)[int((self.median_count - 1) / 2)].
Python sorted is ascending, and for median_count >= 1 the index
int((median_count - 1) / 2) equals (median_count - 1) / 2 in ℕ; the getD
default is never used when the length of l is median_count >= 1. -/
def medianOf (cfg : SensorCfg) (l : List ℚ) : ℚ :=
  (List.insertionSort (· ≤ ·) l).getD ((cfg.median_count - 1) / 2) 0

/-- Lines 161-171 of dht.py: the trim step followed by the median step.  The
median is recomputed into self._state exactly when the trimmed window length
equals self.median_count; otherwise the state is left as it was. -/
def medianStep (cfg : SensorCfg) (s : SensorState) : SensorState :=
  if (trimmed cfg s.data).length = cfg.median_count then
    { data := trimmed cfg s.data, state := some (medianOf cfg (trimmed cfg s.data)) }
  else
    { data := trimmed cfg s.data, state := s.state }

/-- Lines 135-171 of dht.py: the body of DHTSensor.update after the try
block, as a function of the local variable data.  data = some d is the
cached client dict; the data = none branch is the else branch of
`if data is not None` (lines 150-159), which removes the oldest window entry
or, with an empty window, resets the state to None and returns.  On the
successful path data is the client dict and is never None, and the except
handler returns before this body runs, so that branch is unreachable from
DHTSensor.update below; it is embedded for completeness.  Reading a missing
dict key (data[SENSOR_TEMPERATURE] or data[SENSOR_HUMIDITY]) raises KeyError,
which no handler in update catches. -/
def updateAfterTry (cfg : SensorCfg) (data : Option Reading) (s : SensorState) :
    Except PyErr SensorState :=
  match data with
  | some d =>
      match cfg.kind with
      | .temperature =>
          match d.temperature with
          | none => .error .keyError
          | some raw =>
              .ok (medianStep cfg { s with data := tempAppend cfg (pyRound1 raw) s.data })
      | .humidity =>
          match d.humidity with
          | none => .error .keyError
          | some raw =>
              .ok (medianStep cfg { s with data := humAppend (pyRound1 raw) s.data })
  | none =>
      if 0 < s.data.length then .ok { s with data := s.data.tail }
      else .ok { s with state := none }

/-- Lines 120-171 of dht.py: DHTSensor.update.  poll = none models
self.dht_client.update() raising IOError: the except handler logs, assigns
data = None and returns at once (lines 130-133), leaving the sensor state
untouched.  poll = some d models a completed client update with cached dict
d, after which the body runs with data = d. -/
def DHTSensor.update (cfg : SensorCfg) (poll : Option Reading) (s : SensorState) :
    Except PyErr SensorState :=
  match poll with
  | none => .ok s
  | some d => updateAfterTry cfg (some d) s

/-- Line 35 of dht.py: MIN_TIME_BETWEEN_UPDATES = timedelta(seconds=30),
embedded as integer seconds. -/
def MIN_TIME_BETWEEN_UPDATES : ℤ := 30

/-- Mutable state of DHTClient: the cached dict self.data plus the clock of
the Throttle wrapper around update (time of the last completed hardware
access, in integer seconds; none before the first one). -/
structure ClientState where
  data : Reading
  lastAccess : Option ℤ
deriving DecidableEq

/-- Python truthiness of an optional number: None and 0 are falsy, any other
number is truthy. -/
def truthy : Option ℚ → Bool
  | none => false
  | some x => x != 0

/-- Lines 186-191 of dht.py: the unthrottled body of DHTClient.update.
result is the (humidity, temperature) pair returned by
Adafruit_DHT.read_retry; an element overwrites its dict entry only when it
is truthy, otherwise the cached entry is left as it is. -/
def applyDriver (result : Option ℚ × Option ℚ) (d : Reading) : Reading :=
  let d1 := if truthy result.2 then { d with temperature := result.2 } else d
  if truthy result.1 then { d1 with humidity := result.1 } else d1

/-- Outcome of one call of the wrapped DHTClient.update: the new client
state, whether read_retry was invoked, and whether IOError propagated to
the caller. -/
structure ClientResult where
  st : ClientState
  invoked : Bool
  ioError : Bool
deriving DecidableEq

/-- Modelled from the spec: homeassistant.util.Throttle is not part of the
given source tree.  Per the spec, the hardware access is skipped and the
cached Reading returned unchanged when less than the configured minimum
interval (MIN_TIME_BETWEEN_UPDATES, 30 s) has elapsed since the last
completed hardware access. -/
def throttleSkip (now : ℤ) (c : ClientState) : Bool :=
  match c.lastAccess with
  | some t => now - t < MIN_TIME_BETWEEN_UPDATES
  | none => false

/-- Lines 183-191 of dht.py: DHTClient.update behind its Throttle wrapper
(the wrapper is modelled from the spec, see throttleSkip).  driver = none
models read_retry raising IOError, which propagates to the caller with the
cached dict and the throttle clock untouched; driver = some r is a completed
read_retry returning the (humidity, temperature) pair r. -/
def DHTClient.update (now : ℤ) (driver : Option (Option ℚ × Option ℚ)) (c : ClientState) :
    ClientResult :=
  if throttleSkip now c then ⟨c, false, false⟩
  else
    match driver with
    | none => ⟨c, true, true⟩
    | some r => ⟨⟨applyDriver r c.data, some now⟩, true, false⟩

/-- One scheduler cycle of a DHTSensor (lines 126-133 of dht.py): the shared
client is updated first, then the sensor reads the cached dict, with IOError
from the client caught inside DHTSensor.update. -/
def systemUpdate (cfg : SensorCfg) (now : ℤ) (driver : Option (Option ℚ × Option ℚ))
    (c : ClientState) (s : SensorState) : ClientResult × Except PyErr SensorState :=
  let r := DHTClient.update now driver c
  (r, DHTSensor.update cfg (if r.ioError then none else some r.st.data) s)

/-- Lines 90-104 of dht.py: DHTSensor.INIT sets self.data = [] and
self._state = None and then calls self.update() once before the constructor
returns. -/
def DHTSensor.construct (cfg : SensorCfg) (now : ℤ) (driver : Option (Option ℚ × Option ℚ))
    (c : ClientState) : ClientResult × Except PyErr SensorState :=
  systemUpdate cfg now driver c ⟨[], none⟩

/-- Sanity check for the modelled conversion: it is the standard formula. -/
theorem celsius_to_fahrenheit_eq (x : ℚ) : celsius_to_fahrenheit x = x * 9 / 5 + 32 := by
  unfold celsius_to_fahrenheit
  rw [Rat.mkRat_eq_div]
  have hden : ((x.den : ℚ)) ≠ 0 := Nat.cast_ne_zero.mpr x.den_nz
  conv_rhs => rw [← Rat.num_div_den x]
  push_cast
  field_simp
  ring

/-- A truthy optional value is present. -/
theorem truthy_isSome {o : Option ℚ} (h : truthy o = true) : o.isSome = true := by
  cases o with
  | none => simp [truthy] at h
  | some x => rfl

/-- The trim step leaves a window of length at most median_count unchanged. -/
theorem trimmed_eq_of_le (cfg : SensorCfg) (l : List ℚ) (h : l.length ≤ cfg.median_count) :
    trimmed cfg l = l := by
  unfold trimmed
  rw [if_neg (Nat.not_lt.mpr h)]

/-- The trim step either keeps the window or drops exactly its head. -/
theorem trimmed_cases (cfg : SensorCfg) (l : List ℚ) :
    trimmed cfg l = l ∨ trimmed cfg l = l.tail := by
  unfold trimmed
  split
  · exact Or.inr rfl
  · exact Or.inl rfl

/-- The window after the trim and median step is the trimmed window. -/
theorem medianStep_data (cfg : SensorCfg) (s : SensorState) :
    (medianStep cfg s).data = trimmed cfg s.data := by
  unfold medianStep
  split <;> rfl

/-- When the trimmed window has exactly median_count entries, the state is
set to its median. -/
theorem medianStep_state_of_full (cfg : SensorCfg) (s : SensorState)
    (h : (trimmed cfg s.data).length = cfg.median_count) :
    (medianStep cfg s).state = some (medianOf cfg (trimmed cfg s.data)) := by
  unfold medianStep
  rw [if_pos h]

/-- The temperature branch only ever appends at the end of the window. -/
theorem tempAppend_extends (cfg : SensorCfg) (t : ℚ) (l : List ℚ) :
    ∃ app, tempAppend cfg t l = l ++ app := by
  unfold tempAppend
  split
  · exact ⟨_, rfl⟩
  · exact ⟨[], (List.append_nil l).symm⟩

/-- The humidity branch only ever appends at the end of the window. -/
theorem humAppend_extends (h : ℚ) (l : List ℚ) :
    ∃ app, humAppend h l = l ++ app := by
  unfold humAppend
  split
  · exact ⟨_, rfl⟩
  · exact ⟨[], (List.append_nil l).symm⟩

/-- C1: the claim states that exactly one value, in the active display unit,
is appended per accepted poll.  The code violates it: with temp_unit ==
TEMP_FAHRENHEIT and an accepted 25.0 C reading, one call of update appends
both the Celsius value 25.0 and the converted Fahrenheit value 77.0 to the
same window. -/
theorem c1_fahrenheit_double_append :
    DHTSensor.update ⟨.temperature, true, 3⟩ (some ⟨some 25, none⟩) ⟨[], none⟩ =
      .ok ⟨[25, 77], none⟩ := by decide

/-- C2: the claim states the window length never exceeds median_count after
update.  The code violates it: in Fahrenheit mode each accepted poll appends
two values while the trim step drops at most one, so from a fresh sensor
with median_count = 3 three accepted 25.0 C polls leave a window of length
4. -/
theorem c2_window_exceeds_median_count :
    DHTSensor.update ⟨.temperature, true, 3⟩ (some ⟨some 25, none⟩) ⟨[], none⟩ =
      .ok ⟨[25, 77], none⟩ ∧
    DHTSensor.update ⟨.temperature, true, 3⟩ (some ⟨some 25, none⟩) ⟨[25, 77], none⟩ =
      .ok ⟨[77, 25, 77], some 77⟩ ∧
    DHTSensor.update ⟨.temperature, true, 3⟩ (some ⟨some 25, none⟩) ⟨[77, 25, 77], some 77⟩ =
      .ok ⟨[25, 77, 25, 77], some 77⟩ ∧
    ([25, 77, 25, 77] : List ℚ).length = 4 := by decide

/-- C3: the claim states update never propagates an exception.  The code
violates it: when the cached Reading has no entry for the quantity of the
sensor (here a fresh client whose poll returned a falsy pair), the lookup
data[SENSOR_TEMPERATURE] raises KeyError, which no handler catches. -/
theorem c3_missing_key_raises :
    systemUpdate ⟨.temperature, false, 3⟩ 0 (some (none, none)) ⟨⟨none, none⟩, none⟩ ⟨[], none⟩ =
      (⟨⟨⟨none, none⟩, some 0⟩, true, false⟩, .error .keyError) := by decide

/-- C4: the claim states a no-data cycle shrinks the window by its oldest
element.  The code violates it: on a driver IOError the except handler
returns before the decay branch, leaving the window untouched; on an absent
value it raises KeyError instead.  The decay branch itself (third conjunct,
entered directly with data = None) would behave as claimed, but it is
unreachable from DHTSensor.update. -/
theorem c4_no_decay_on_no_data :
    DHTSensor.update ⟨.temperature, false, 3⟩ none ⟨[10, 12, 14], some 12⟩ =
      .ok ⟨[10, 12, 14], some 12⟩ ∧
    DHTSensor.update ⟨.temperature, false, 3⟩ (some ⟨none, some 55⟩) ⟨[10, 12, 14], some 12⟩ =
      .error .keyError ∧
    updateAfterTry ⟨.temperature, false, 3⟩ none ⟨[10, 12, 14], some 12⟩ =
      .ok ⟨[12, 14], some 12⟩ := by decide

/-- Every successful update with present data runs the append branch and
then the trim and median step: the resulting state is medianStep applied to
the old window extended at its end. -/
theorem update_ok_shape (cfg : SensorCfg) (d : Reading) (s s' : SensorState)
    (hupd : DHTSensor.update cfg (some d) s = .ok s') :
    ∃ l : List ℚ, (∃ app, l = s.data ++ app) ∧ s' = medianStep cfg ⟨l, s.state⟩ := by
  obtain ⟨dt, dh⟩ := d
  obtain ⟨kind, fahr, N⟩ := cfg
  cases kind with
  | temperature =>
      cases dt with
      | none => simp [DHTSensor.update, updateAfterTry] at hupd
      | some raw =>
          simp only [DHTSensor.update, updateAfterTry, Except.ok.injEq] at hupd
          obtain ⟨app, happ⟩ := tempAppend_extends ⟨.temperature, fahr, N⟩ (pyRound1 raw) s.data
          exact ⟨_, ⟨app, happ⟩, hupd.symm⟩
  | humidity =>
      cases dh with
      | none => simp [DHTSensor.update, updateAfterTry] at hupd
      | some raw =>
          simp only [DHTSensor.update, updateAfterTry, Except.ok.injEq] at hupd
          obtain ⟨app, happ⟩ := humAppend_extends (pyRound1 raw) s.data
          exact ⟨_, ⟨app, happ⟩, hupd.symm⟩

/-- C5: whenever an update with present data succeeds and leaves a window of
exactly median_count entries, the displayed value is the lower median, the
element at index (median_count - 1) / 2 of an ascending sorted copy of the
window; and the window itself stays in insertion order, being the old window
extended at the end with at most the head dropped, never the sorted copy. -/
theorem c5_lower_median_when_full (cfg : SensorCfg) (d : Reading) (s s' : SensorState)
    (hupd : DHTSensor.update cfg (some d) s = .ok s')
    (hlen : s'.data.length = cfg.median_count) :
    s'.state =
      some ((List.insertionSort (· ≤ ·) s'.data).getD ((cfg.median_count - 1) / 2) 0) ∧
    ∃ app : List ℚ, s'.data = s.data ++ app ∨ s'.data = (s.data ++ app).tail := by
  obtain ⟨l, ⟨app, happ⟩, hs'⟩ := update_ok_shape cfg d s s' hupd
  subst happ
  subst hs'
  have hfull : (trimmed cfg (s.data ++ app)).length = cfg.median_count := by
    have h := medianStep_data cfg ⟨s.data ++ app, s.state⟩
    rw [h] at hlen
    exact hlen
  constructor
  · rw [medianStep_state_of_full _ _ hfull, medianStep_data]
    rfl
  · rw [medianStep_data]
    exact ⟨app, trimmed_cases cfg (s.data ++ app)⟩

/-- C5 witness: median_count 3, window [20.1, 20.5], accepted sample 19.9;
the sorted copy is [19.9, 20.1, 20.5] and the displayed value its middle
element 20.1, while the window stays [20.1, 20.5, 19.9]. -/
theorem c5_lower_median_witness :
    (DHTSensor.update ⟨.temperature, false, 3⟩ (some ⟨some (mkRat 199 10), none⟩)
        ⟨[mkRat 201 10, mkRat 205 10], none⟩ =
      .ok ⟨[mkRat 201 10, mkRat 205 10, mkRat 199 10], some (mkRat 201 10)⟩) ∧
    (((⟨[mkRat 201 10, mkRat 205 10, mkRat 199 10], some (mkRat 201 10)⟩ :
        SensorState).data).length = 3) ∧
    ((⟨[mkRat 201 10, mkRat 205 10, mkRat 199 10], some (mkRat 201 10)⟩ :
        SensorState).state =
      some ((List.insertionSort (· ≤ ·)
        ((⟨[mkRat 201 10, mkRat 205 10, mkRat 199 10], some (mkRat 201 10)⟩ :
          SensorState).data)).getD ((3 - 1) / 2) 0) ∧
      ∃ app : List ℚ,
        (⟨[mkRat 201 10, mkRat 205 10, mkRat 199 10], some (mkRat 201 10)⟩ :
            SensorState).data =
          [mkRat 201 10, mkRat 205 10] ++ app ∨
        (⟨[mkRat 201 10, mkRat 205 10, mkRat 199 10], some (mkRat 201 10)⟩ :
            SensorState).data =
          ([mkRat 201 10, mkRat 205 10] ++ app).tail) :=
  ⟨by decide, by decide,
    c5_lower_median_when_full ⟨.temperature, false, 3⟩ ⟨some (mkRat 199 10), none⟩
      ⟨[mkRat 201 10, mkRat 205 10], none⟩ _ (by decide) (by decide)⟩

/-- C6 counterexample: the claim as stated says a value outside its range
leaves the window unchanged.  On a reachable run it does not: a Fahrenheit
sensor with median_count 3 reaches the oversized window [25, 77, 25, 77]
after three accepted 25.0 C polls (double append), and the next poll with
the rejected value 100 still shrinks the window to [77, 25, 77], because the
trim step runs unconditionally after the filter. -/
theorem c6_rejected_value_changes_window :
    DHTSensor.update ⟨.temperature, true, 3⟩ (some ⟨some 25, none⟩) ⟨[], none⟩ =
      .ok ⟨[25, 77], none⟩ ∧
    DHTSensor.update ⟨.temperature, true, 3⟩ (some ⟨some 25, none⟩) ⟨[25, 77], none⟩ =
      .ok ⟨[77, 25, 77], some 77⟩ ∧
    DHTSensor.update ⟨.temperature, true, 3⟩ (some ⟨some 25, none⟩) ⟨[77, 25, 77], some 77⟩ =
      .ok ⟨[25, 77, 25, 77], some 77⟩ ∧
    ¬(-20 ≤ pyRound1 100 ∧ pyRound1 100 < 80) ∧
    DHTSensor.update ⟨.temperature, true, 3⟩ (some ⟨some 100, none⟩)
        ⟨[25, 77, 25, 77], some 77⟩ =
      .ok ⟨[77, 25, 77], some 77⟩ ∧
    ([77, 25, 77] : List ℚ) ≠ [25, 77, 25, 77] := by decide

/-- C6 amended: the rounded scalar is appended only if it passes the
plausibility filter (temperature accepted iff -20 <= t < 80, humidity iff
0 <= h <= 100); a rejected value raises no error and is not appended, and it
leaves the window unchanged whenever the window length is at most
median_count, which is every state the corrected single-append behavior can
reach; an accepted value is appended (first, directly after the old
entries). -/
theorem c6_filter_amended (cfg : SensorCfg) (d : Reading) (x : ℚ) (s : SensorState)
    (hlen : s.data.length ≤ cfg.median_count) :
    (cfg.kind = .temperature → d.temperature = some x →
      (¬(-20 ≤ pyRound1 x ∧ pyRound1 x < 80) →
        ∃ s', DHTSensor.update cfg (some d) s = .ok s' ∧ s'.data = s.data) ∧
      ((-20 ≤ pyRound1 x ∧ pyRound1 x < 80) →
        ∃ rest, tempAppend cfg (pyRound1 x) s.data = s.data ++ pyRound1 x :: rest ∧
          ∃ s', DHTSensor.update cfg (some d) s = .ok s')) ∧
    (cfg.kind = .humidity → d.humidity = some x →
      (¬(0 ≤ pyRound1 x ∧ pyRound1 x ≤ 100) →
        ∃ s', DHTSensor.update cfg (some d) s = .ok s' ∧ s'.data = s.data) ∧
      ((0 ≤ pyRound1 x ∧ pyRound1 x ≤ 100) →
        humAppend (pyRound1 x) s.data = s.data ++ [pyRound1 x] ∧
          ∃ s', DHTSensor.update cfg (some d) s = .ok s')) := by
  obtain ⟨dt, dh⟩ := d
  obtain ⟨kind, fahr, N⟩ := cfg
  constructor
  · intro hk hdx
    cases hk
    cases hdx
    constructor
    · intro hrej
      have hnoapp : tempAppend ⟨.temperature, fahr, N⟩ (pyRound1 x) s.data = s.data := by
        unfold tempAppend
        rw [if_neg hrej]
      refine ⟨_, rfl, ?_⟩
      rw [medianStep_data]
      show trimmed _ (tempAppend ⟨.temperature, fahr, N⟩ (pyRound1 x) s.data) = s.data
      rw [hnoapp]
      exact trimmed_eq_of_le _ s.data hlen
    · intro hacc
      refine ⟨if fahr then [pyRound1 (celsius_to_fahrenheit (pyRound1 x))] else [],
        ?_, ⟨_, rfl⟩⟩
      unfold tempAppend
      rw [if_pos hacc]
  · intro hk hdx
    cases hk
    cases hdx
    constructor
    · intro hrej
      have hnoapp : humAppend (pyRound1 x) s.data = s.data := by
        unfold humAppend
        rw [if_neg hrej]
      refine ⟨_, rfl, ?_⟩
      rw [medianStep_data]
      show trimmed _ (humAppend (pyRound1 x) s.data) = s.data
      rw [hnoapp]
      exact trimmed_eq_of_le _ s.data hlen
    · intro hacc
      refine ⟨?_, ⟨_, rfl⟩⟩
      unfold humAppend
      rw [if_pos hacc]

/-- C6 amended witness: a temperature of exactly 80 is rejected (exclusive
upper bound) and the full window [1, 2, 3] with median_count 3 stays
unchanged, with no error raised. -/
theorem c6_filter_amended_witness :
    ∃ s', DHTSensor.update ⟨.temperature, false, 3⟩ (some ⟨some 80, none⟩)
        ⟨[1, 2, 3], some 2⟩ = .ok s' ∧ s'.data = [1, 2, 3] :=
  ((c6_filter_amended ⟨.temperature, false, 3⟩ ⟨some 80, none⟩ 80 ⟨[1, 2, 3], some 2⟩
      (by decide)).1 rfl rfl).1 (by decide)

/-- C7: after a completed hardware access at time t, any further call less
than MIN_TIME_BETWEEN_UPDATES later is throttled: read_retry is not invoked
again, no error escapes, and the cached Reading (the whole client state) is
returned unchanged, whatever the driver would have done. -/
theorem c7_throttle_skips_second_poll (t now : ℤ) (c : ClientState)
    (a : Option ℚ × Option ℚ) (driver2 : Option (Option ℚ × Option ℚ))
    (h0 : c.lastAccess = none) (h1 : now - t < MIN_TIME_BETWEEN_UPDATES) :
    (DHTClient.update t (some a) c).invoked = true ∧
    DHTClient.update now driver2 (DHTClient.update t (some a) c).st =
      ⟨(DHTClient.update t (some a) c).st, false, false⟩ := by
  have hskip1 : throttleSkip t c = false := by
    unfold throttleSkip
    rw [h0]
  have hfirst : DHTClient.update t (some a) c =
      ⟨⟨applyDriver a c.data, some t⟩, true, false⟩ := by
    unfold DHTClient.update
    rw [hskip1]
    rfl
  have hskip2 : throttleSkip now (⟨applyDriver a c.data, some t⟩ : ClientState) = true := by
    unfold throttleSkip
    exact decide_eq_true h1
  rw [hfirst]
  refine ⟨rfl, ?_⟩
  unfold DHTClient.update
  rw [hskip2]
  rfl

/-- C7 witness: a successful poll at time 0 followed by a poll at time 5
with a 30 second throttle: the second call does not reach the driver and
returns the cached state unchanged. -/
theorem c7_throttle_witness :
    (DHTClient.update 0 (some (some 50, some 21)) ⟨⟨none, none⟩, none⟩).invoked = true ∧
    DHTClient.update 5 (some (some 1, some 2))
        (DHTClient.update 0 (some (some 50, some 21)) ⟨⟨none, none⟩, none⟩).st =
      ⟨(DHTClient.update 0 (some (some 50, some 21)) ⟨⟨none, none⟩, none⟩).st,
        false, false⟩ :=
  c7_throttle_skips_second_poll 0 5 ⟨⟨none, none⟩, none⟩ (some 50, some 21)
    (some (some 1, some 2)) rfl (by decide)

/-- C8: on an unthrottled access that completes, read_retry is invoked and
each cached field is overwritten exactly when the matching element of the
(humidity, temperature) result is truthy; a falsy element leaves the
previously cached value for that quantity unchanged. -/
theorem c8_truthy_overwrite (now : ℤ) (a : Option ℚ × Option ℚ) (c : ClientState)
    (h : throttleSkip now c = false) :
    (DHTClient.update now (some a) c).invoked = true ∧
    (DHTClient.update now (some a) c).st.data.temperature =
      (if truthy a.2 then a.2 else c.data.temperature) ∧
    (DHTClient.update now (some a) c).st.data.humidity =
      (if truthy a.1 then a.1 else c.data.humidity) := by
  have hu : DHTClient.update now (some a) c =
      ⟨⟨applyDriver a c.data, some now⟩, true, false⟩ := by
    unfold DHTClient.update
    rw [h]
    rfl
  rw [hu]
  refine ⟨rfl, ?_, ?_⟩ <;>
  · unfold applyDriver
    cases ht : truthy a.2 <;> cases hh : truthy a.1 <;> simp [ht, hh]

/-- C8 witness: an unthrottled poll returning (None, 21) overwrites the
cached temperature with 21 and keeps the cached humidity 55. -/
theorem c8_truthy_overwrite_witness :
    (DHTClient.update 100 (some (none, some 21)) ⟨⟨some 20, some 55⟩, some 0⟩).invoked =
      true ∧
    (DHTClient.update 100 (some (none, some 21))
        ⟨⟨some 20, some 55⟩, some 0⟩).st.data.temperature = some 21 ∧
    (DHTClient.update 100 (some (none, some 21))
        ⟨⟨some 20, some 55⟩, some 0⟩).st.data.humidity = some 55 :=
  c8_truthy_overwrite 100 (none, some 21) ⟨⟨some 20, some 55⟩, some 0⟩ rfl

/-- A truthy element written by applyDriver keeps the temperature present. -/
theorem applyDriver_temperature_isSome (r : Option ℚ × Option ℚ) (d : Reading)
    (h : d.temperature.isSome = true) : (applyDriver r d).temperature.isSome = true := by
  unfold applyDriver
  cases ht : truthy r.2
  · cases hh : truthy r.1 <;> simp [ht, hh, h]
  · cases hh : truthy r.1 <;> simp [ht, hh, truthy_isSome ht]

/-- A truthy element written by applyDriver keeps the humidity present. -/
theorem applyDriver_humidity_isSome (r : Option ℚ × Option ℚ) (d : Reading)
    (h : d.humidity.isSome = true) : (applyDriver r d).humidity.isSome = true := by
  unfold applyDriver
  cases ht : truthy r.2
  · cases hh : truthy r.1
    · simp [ht, hh, h]
    · simp [ht, hh, truthy_isSome hh]
  · cases hh : truthy r.1
    · simp [ht, hh, h]
    · simp [ht, hh, truthy_isSome hh]

/-- C9: one step of the wrapped DHTClient.update never deletes a cached
key: whatever the driver does (throttled call, IOError, falsy or truthy
elements), a quantity present in the cache stays present. -/
theorem c9_cached_keys_persist (now : ℤ) (driver : Option (Option ℚ × Option ℚ))
    (c : ClientState) :
    (c.data.temperature.isSome = true →
      (DHTClient.update now driver c).st.data.temperature.isSome = true) ∧
    (c.data.humidity.isSome = true →
      (DHTClient.update now driver c).st.data.humidity.isSome = true) := by
  unfold DHTClient.update
  cases hsk : throttleSkip now c
  · cases driver with
    | none => simp
    | some r =>
        simp only [Bool.false_eq_true, if_false]
        exact ⟨applyDriver_temperature_isSome r c.data, applyDriver_humidity_isSome r c.data⟩
  · simp

/-- C9 witness: with both quantities cached, a poll whose driver raises
IOError leaves both present. -/
theorem c9_cached_keys_witness :
    (DHTClient.update 5 none ⟨⟨some 21, some 50⟩, some 0⟩).st.data.temperature.isSome =
      true ∧
    (DHTClient.update 5 none ⟨⟨some 21, some 50⟩, some 0⟩).st.data.humidity.isSome =
      true :=
  ⟨(c9_cached_keys_persist 5 none ⟨⟨some 21, some 50⟩, some 0⟩).1 rfl,
    (c9_cached_keys_persist 5 none ⟨⟨some 21, some 50⟩, some 0⟩).2 rfl⟩

/-- C10: DHTSensor.construct is exactly one update run from the fresh state
(data = [], state unknown), so construction already attempts a
throttle-gated hardware poll; concretely, with median_count 1 and a
successful 25.3 C first poll the constructor returns with a non-empty
window [25.3] and the displayed value already set to 25.3. -/
theorem c10_construct_runs_update :
    (∀ (cfg : SensorCfg) (now : ℤ) (driver : Option (Option ℚ × Option ℚ))
      (c : ClientState),
      DHTSensor.construct cfg now driver c = systemUpdate cfg now driver c ⟨[], none⟩) ∧
    DHTSensor.construct ⟨.temperature, false, 1⟩ 0 (some (some 40, some (mkRat 253 10)))
        ⟨⟨none, none⟩, none⟩ =
      (⟨⟨⟨some (mkRat 253 10), some 40⟩, some 0⟩, true, false⟩,
        .ok ⟨[mkRat 253 10], some (mkRat 253 10)⟩) :=
  ⟨fun _ _ _ _ => rfl, by decide⟩
